import Mathlib

/-!
Shallow embedding of `warsawgtfs_realtime.go` (the realtime orchestrator of
WarsawGTFS): CLI flag configuration, mode checking, GTFS loading, per-mode
options construction and the `main` dispatch, modelled as pure functions.
External effects (HTTP fetches, file reads, the generation collaborators)
are represented by an environment record of oracles and by an event trace
recording which collaborator was invoked with which arguments.
-/

/-- The CLI flag configuration of the process (the `flag.*` globals).
`loop` and `dataCheck` are durations in nanoseconds. -/
structure Flags where
  alerts : Bool
  brigades : Bool
  positions : Bool
  apikey : String
  gtfsFile : String
  brigadesFile : String
  target : String
  json : Bool
  readable : Bool
  strict : Bool
  loop : Nat
  dataCheck : Nat
deriving DecidableEq, Repr

/-- Model of `path.Join` for two already-clean components, as used in this
program: joins with a slash (Go's `path.Join` additionally cleans the
result, which is the identity on the clean inputs built here). -/
def pathJoin (a b : String) : String :=
  if a = "" then b else a ++ "/" ++ b

/-- Model of a `gtfs.Gtfs` container: the names of the files inside the
zip archive. -/
structure Gtfs where
  zipFiles : List String
deriving DecidableEq, Repr

/-- `gtfsFile.GetZipFileByName name` returns a handle (here: the name)
when the archive holds a file of that name, `nil` otherwise. -/
def Gtfs.getZipFileByName (g : Gtfs) (name : String) : Option String :=
  if g.zipFiles.contains name then some name else none

/-- `alerts.Options` (fields used by this program). Go zero value of
`JSONTarget` is the empty string. -/
structure AlertsOptions where
  GtfsRtTarget : String
  HumanReadable : Bool
  ThrowLinkErrors : Bool
  JSONTarget : String
deriving DecidableEq, Repr

/-- `brigades.Options` (fields used by this program). -/
structure BrigadesOptions where
  JSONTarget : String
  Apikey : String
  ThrowAPIErrors : Bool
deriving DecidableEq, Repr

/-- `positions.Options` (fields used by this program). -/
structure PositionsOptions where
  GtfsRtTarget : String
  HumanReadable : Bool
  Apikey : String
  Brigades : String
  JSONTarget : String
deriving DecidableEq, Repr

/-- `util.Resource` as constructed in `loopAlerts`: either a
`util.ResourceHTTP` (url, check period) or a `util.ResourceLocal`
(path, check period). The variant is fixed at construction. -/
inductive Resource where
  | http (url : String) (period : Nat)
  | localFile (path : String) (period : Nat)
deriving DecidableEq, Repr

/-- Events recording the externally visible calls made by the program:
fetching the static GTFS over the network or from local storage, loading
the routes subset or the whole dataset, and invoking each generation
collaborator with the options handed to it. -/
inductive Event where
  | fetchURL (url : String)
  | fetchFile (path : String)
  | loadRoutes
  | loadAll
  | makeAlerts (opts : AlertsOptions)
  | loopAlertsCall (res : Resource) (loopPeriod : Nat) (opts : AlertsOptions)
  | makeBrigades (opts : BrigadesOptions)
  | makePositions (opts : PositionsOptions)
deriving DecidableEq, Repr

/-- Oracles for the results of the external collaborators: what the GTFS
fetch returns for a given location, and whether each downstream call
succeeds (`none`) or fails with an error message (`some msg`). -/
structure Env where
  fetchGtfs : String → Except String Gtfs
  loadRoutesRes : Option String
  loadAllRes : Option String
  makeAlertsRes : Option String
  loopAlertsRes : Option String
  makeBrigadesRes : Option String
  makePositionsRes : Option String

/-- Program state threaded through `main`: the global `gtfsFile` handle
and the trace of external calls so far. -/
structure St where
  gtfsFile : Option Gtfs
  events : List Event
deriving DecidableEq, Repr

/-- The initial state: `gtfsFile` is the nil pointer, nothing happened. -/
def St.init : St := { gtfsFile := none, events := [] }

/-- `checkModes`: ensures exactly one of `flagAlerts`, `flagBrigades`,
`flagPostions` is set; returns the error, or `none` on success. -/
def checkModes (f : Flags) : Option String :=
  let modeCount : Nat :=
    (if f.alerts then 1 else 0) + (if f.brigades then 1 else 0) +
      (if f.positions then 1 else 0)
  if modeCount ≠ 1 then
    some "exactly one of the -a, -b or -p flags has to be provided"
  else
    none

/-- The scheme-prefix test used in `loadGtfs` and `loopAlerts`:
`strings.HasPrefix(*flagGtfsFile, "http://") || strings.HasPrefix(*flagGtfsFile, "https://")`. -/
def isNetworkAddressed (s : String) : Bool :=
  s.startsWith "http://" || s.startsWith "https://"

/-- The fetch step of `loadGtfs`: picks `gtfs.NewGtfsFromURL` or
`gtfs.NewGtfsFromFile` from the scheme prefix of `-gtfs-file`, returning
the event recording which loader ran plus the fetch result. -/
def fetchStep (env : Env) (f : Flags) : Event × Except String Gtfs :=
  if isNetworkAddressed f.gtfsFile then
    (Event.fetchURL f.gtfsFile, env.fetchGtfs f.gtfsFile)
  else
    (Event.fetchFile f.gtfsFile, env.fetchGtfs f.gtfsFile)

/-- The tail of `loadGtfs` after the fetch returned (`ev` records which
loader ran): on fetch failure the error propagates with the nil handle;
otherwise in alerts mode only `routes.txt` is loaded (erroring when that
file is absent from the archive), and in any other mode the complete
dataset is loaded. -/
def loadGtfsAfterFetch (env : Env) (f : Flags) (st : St) (ev : Event) :
    Except String Gtfs → St × Option String
  | .error e => ({ gtfsFile := none, events := st.events ++ [ev] }, some e)
  | .ok g =>
    let st1 : St := { gtfsFile := some g, events := st.events ++ [ev] }
    if f.alerts then
      match g.getZipFileByName "routes.txt" with
      | some _ =>
        ({ st1 with events := st1.events ++ [Event.loadRoutes] },
          env.loadRoutesRes)
      | none => (st1, some "no file routes.txt in the GTFS")
    else
      ({ st1 with events := st1.events ++ [Event.loadAll] }, env.loadAllRes)

/-- `loadGtfs`: fetches the GTFS into the global `gtfsFile` handle, then
loads the data structures the active mode requires. -/
def loadGtfs (env : Env) (f : Flags) (st : St) : St × Option String :=
  let fe := fetchStep env f
  loadGtfsAfterFetch env f st fe.1 fe.2

/-- Options construction in `mainAlerts` (lines 146–154). -/
def mkAlertsOptionsMain (f : Flags) : AlertsOptions :=
  let opts : AlertsOptions :=
    { GtfsRtTarget := pathJoin f.target "alerts.pb"
      HumanReadable := f.readable
      ThrowLinkErrors := f.strict
      JSONTarget := "" }
  if f.json then
    { opts with JSONTarget := pathJoin f.target "alerts.json" }
  else
    opts

/-- Options construction in `loopAlerts` (lines 164–172). -/
def mkAlertsOptionsLoop (f : Flags) : AlertsOptions :=
  let opts : AlertsOptions :=
    { GtfsRtTarget := pathJoin f.target "alerts.pb"
      HumanReadable := f.readable
      ThrowLinkErrors := f.strict
      JSONTarget := "" }
  if f.json then
    { opts with JSONTarget := pathJoin f.target "alerts.json" }
  else
    opts

/-- Options construction in `mainBrigades` (lines 194–199). -/
def mkBrigadesOptions (f : Flags) : BrigadesOptions :=
  { JSONTarget := pathJoin f.target "brigades.json"
    Apikey := f.apikey
    ThrowAPIErrors := f.strict }

/-- Options construction in `mainPositions` (lines 212–221). -/
def mkPositionsOptions (f : Flags) : PositionsOptions :=
  let opts : PositionsOptions :=
    { GtfsRtTarget := pathJoin f.target "positions.pb"
      HumanReadable := f.readable
      Apikey := f.apikey
      Brigades := f.brigadesFile
      JSONTarget := "" }
  if f.json then
    { opts with JSONTarget := pathJoin f.target "positions.json" }
  else
    opts

/-- `mainAlerts`: builds the alerts options and calls `alerts.Make`. -/
def mainAlerts (env : Env) (f : Flags) (st : St) : St × Option String :=
  let opts := mkAlertsOptionsMain f
  ({ st with events := st.events ++ [Event.makeAlerts opts] },
    env.makeAlertsRes)

/-- The `util.Resource` constructed in `loopAlerts` (lines 175–182):
`ResourceHTTP` when `-gtfs-file` carries a recognized scheme prefix,
`ResourceLocal` otherwise, each with the `-checkdata` period. -/
def gtfsResourceFor (f : Flags) : Resource :=
  if isNetworkAddressed f.gtfsFile then
    Resource.http f.gtfsFile f.dataCheck
  else
    Resource.localFile f.gtfsFile f.dataCheck

/-- `loopAlerts`: builds the alerts options and the data resource and
calls `alerts.Loop`. -/
def loopAlerts (env : Env) (f : Flags) (st : St) : St × Option String :=
  let opts := mkAlertsOptionsLoop f
  let res := gtfsResourceFor f
  ({ st with events := st.events ++ [Event.loopAlertsCall res f.loop opts] },
    env.loopAlertsRes)

/-- `mainBrigades`: rejects an empty api key, otherwise builds the
brigades options and calls `brigades.Main`. -/
def mainBrigades (env : Env) (f : Flags) (st : St) : St × Option String :=
  if f.apikey = "" then
    (st, some "Key for api.um.warszawa.pl needs to be provided")
  else
    let opts := mkBrigadesOptions f
    ({ st with events := st.events ++ [Event.makeBrigades opts] },
      env.makeBrigadesRes)

/-- `mainPositions`: rejects an empty api key, otherwise builds the
positions options and calls `positions.Main`. -/
def mainPositions (env : Env) (f : Flags) (st : St) : St × Option String :=
  if f.apikey = "" then
    (st, some "Key for api.um.warszawa.pl needs to be provided")
  else
    let opts := mkPositionsOptions f
    ({ st with events := st.events ++ [Event.makePositions opts] },
      env.makePositionsRes)

/-- `main` (after `flag.Parse`): check modes, conditionally load the GTFS,
then dispatch on the mode switch; `log.Fatalln` is modelled as returning
the error alongside the state at the point of failure. -/
def mainRun (env : Env) (f : Flags) : St × Option String :=
  let loopMode : Bool := decide (0 < f.loop)
  match checkModes f with
  | some e => (St.init, some e)
  | none =>
    let r1 :=
      if !f.positions && !loopMode then loadGtfs env f St.init
      else (St.init, none)
    match r1.2 with
    | some e => (r1.1, some e)
    | none =>
      if f.alerts && loopMode then loopAlerts env f r1.1
      else if f.alerts then mainAlerts env f r1.1
      else if loopMode then
        (r1.1, some "loop mode is only available for alerts")
      else if f.brigades then mainBrigades env f r1.1
      else if f.positions then mainPositions env f r1.1
      else (r1.1, none)

/-- Cycle-boundary events of continuous (loop) mode: the start and end of
cycle `n`'s change check and of its regeneration. -/
inductive CycleEvent where
  | checkStart (cycle : Nat)
  | checkEnd (cycle : Nat)
  | regenStart (cycle : Nat)
  | regenEnd (cycle : Nat)
deriving DecidableEq, Repr

/-- The cycle an event belongs to. -/
def CycleEvent.cycle : CycleEvent → Nat
  | .checkStart n => n
  | .checkEnd n => n
  | .regenStart n => n
  | .regenEnd n => n

/-- Modelled from the spec: the body of one Loop Driver cycle of
`alerts.Loop` (the loop itself lives in the `realtime/alerts` package, not
in this file): check the resource for a change, and regenerate exactly when
it changed, all before the cycle ends. -/
def cycleTrace (changed : Nat → Bool) (n : Nat) : List CycleEvent :=
  [CycleEvent.checkStart n, CycleEvent.checkEnd n] ++
    (if changed n then [CycleEvent.regenStart n, CycleEvent.regenEnd n]
      else [])

/-- Modelled from the spec: the boundary-event trace of the first `n`
cycles of `alerts.Loop`, run sequentially on a single timeline. -/
def alertsLoopTrace (changed : Nat → Bool) : Nat → List CycleEvent
  | 0 => []
  | n + 1 => alertsLoopTrace changed n ++ cycleTrace changed n

lemma mem_cycleTrace {changed : Nat → Bool} {n : Nat} {e : CycleEvent}
    (he : e ∈ cycleTrace changed n) : e.cycle = n := by
  cases h : changed n <;> simp [cycleTrace, h] at he
  · rcases he with rfl | rfl <;> rfl
  · rcases he with rfl | rfl | rfl | rfl <;> rfl

lemma mem_alertsLoopTrace {changed : Nat → Bool} {n : Nat} {e : CycleEvent}
    (he : e ∈ alertsLoopTrace changed n) : e.cycle < n := by
  induction n with
  | zero => simp [alertsLoopTrace] at he
  | succ m ih =>
    simp only [alertsLoopTrace, List.mem_append] at he
    rcases he with h | h
    · exact Nat.lt_succ_of_lt (ih h)
    · rw [mem_cycleTrace h]
      exact Nat.lt_succ_self m

lemma cycleTrace_pairwise (changed : Nat → Bool) (m : Nat) :
    (cycleTrace changed m).Pairwise (fun a b => a.cycle ≤ b.cycle) := by
  cases h : changed m <;>
    simp [cycleTrace, h, List.pairwise_cons, CycleEvent.cycle]

lemma alertsLoopTrace_pairwise (changed : Nat → Bool) (n : Nat) :
    (alertsLoopTrace changed n).Pairwise (fun a b => a.cycle ≤ b.cycle) := by
  induction n with
  | zero => simp [alertsLoopTrace]
  | succ m ih =>
    simp only [alertsLoopTrace]
    refine List.pairwise_append.mpr ⟨ih, cycleTrace_pairwise changed m, ?_⟩
    intro a ha b hb
    rw [mem_cycleTrace hb]
    exact Nat.le_of_lt (mem_alertsLoopTrace ha)

/-- A concrete collaborator environment: every fetch yields an archive
holding `routes.txt`, and every downstream call succeeds. -/
def envW : Env :=
  { fetchGtfs := fun _ => Except.ok { zipFiles := ["routes.txt", "trips.txt"] }
    loadRoutesRes := none
    loadAllRes := none
    makeAlertsRes := none
    loopAlertsRes := none
    makeBrigadesRes := none
    makePositionsRes := none }

/-- A concrete flag configuration: brigades mode, loop cadence 60. -/
def flagsW : Flags :=
  { alerts := false, brigades := true, positions := false
    apikey := "key"
    gtfsFile := "https://mkuran.pl/gtfs/warsaw.zip"
    brigadesFile := "https://mkuran.pl/gtfs/warsaw/brigades.json"
    target := "data_rt", json := false, readable := false, strict := false
    loop := 60, dataCheck := 1800 }

/-- A concrete flag configuration: one-shot alerts mode. -/
def flagsA : Flags :=
  { flagsW with alerts := true, brigades := false, loop := 0 }

/-- A concrete flag configuration: one-shot positions mode. -/
def flagsP : Flags :=
  { flagsW with positions := true, brigades := false, loop := 0 }

lemma fetchStep_snd (env : Env) (f : Flags) :
    (fetchStep env f).2 = env.fetchGtfs f.gtfsFile := by
  unfold fetchStep
  split <;> rfl

/-- Claim C2: `checkModes` errors exactly when the number of set mode
intents among alerts, brigades, positions differs from one, and returns
no error when exactly one is set. -/
theorem checkModes_error_iff (f : Flags) :
    (checkModes f).isSome ↔
      [f.alerts, f.brigades, f.positions].count true ≠ 1 := by
  rcases f with ⟨a, b, p, _, _, _, _, _, _, _, _, _⟩
  cases a <;> cases b <;> cases p <;> simp [checkModes]

/-- Claim C1: with a non-zero loop cadence and a single selected mode
other than alerts, `main` fails with the loop-mode configuration error
and the trace is empty: no fetch happened, the GTFS was never loaded, and
the global handle is still nil. -/
theorem loop_nonalerts_rejected (env : Env) (f : Flags)
    (hl : 0 < f.loop) (ha : f.alerts = false) (hm : f.brigades ≠ f.positions) :
    (mainRun env f).2 = some "loop mode is only available for alerts" ∧
    (mainRun env f).1.events = [] ∧ (mainRun env f).1.gtfsFile = none := by
  rcases f with ⟨a, b, p, k, gf, bf, t, j, r, s, lp, dc⟩
  simp only at ha hm hl
  subst ha
  have hl2 : decide (0 < lp) = true := by simpa using hl
  cases b <;> cases p <;>
    simp_all [mainRun, checkModes, St.init]

theorem loop_nonalerts_rejected_witness :
    0 < flagsW.loop ∧ flagsW.alerts = false ∧ flagsW.brigades ≠ flagsW.positions ∧
    ((mainRun envW flagsW).2 = some "loop mode is only available for alerts" ∧
      (mainRun envW flagsW).1.events = [] ∧
      (mainRun envW flagsW).1.gtfsFile = none) :=
  ⟨by decide, rfl, by decide,
    loop_nonalerts_rejected envW flagsW (by decide) rfl (by decide)⟩

/-- Claim C3 counterexample: at a concrete configuration the primary feed
path is `data_rt/alerts.pb` (resp. `data_rt/positions.pb`) both with the
human-readable flag cleared and with it set — the extension does not
differ between compact-binary and human-readable output, contrary to the
claim. -/
theorem primary_ext_ignores_format_flag :
    (mkAlertsOptionsMain { flagsA with readable := false }).GtfsRtTarget =
      (mkAlertsOptionsMain { flagsA with readable := true }).GtfsRtTarget ∧
    (mkAlertsOptionsMain { flagsA with readable := true }).GtfsRtTarget =
      "data_rt/alerts.pb" ∧
    (mkPositionsOptions { flagsP with readable := false }).GtfsRtTarget =
      (mkPositionsOptions { flagsP with readable := true }).GtfsRtTarget ∧
    (mkPositionsOptions { flagsP with readable := true }).GtfsRtTarget =
      "data_rt/positions.pb" := by
  refine ⟨rfl, by decide, rfl, by decide⟩

/-- Claim C3 amended: for every configuration the primary feed path is
`alerts.pb` / `positions.pb` inside the target directory, independent of
the human-readable format flag (which only selects the serialization);
brigades mode builds only the plain-data mapping path `brigades.json`. -/
theorem primary_paths (f : Flags) :
    (mkAlertsOptionsMain f).GtfsRtTarget = pathJoin f.target "alerts.pb" ∧
    (mkPositionsOptions f).GtfsRtTarget = pathJoin f.target "positions.pb" ∧
    (mkBrigadesOptions f).JSONTarget = pathJoin f.target "brigades.json" ∧
    (mkAlertsOptionsMain f).GtfsRtTarget =
      (mkAlertsOptionsMain { f with readable := true }).GtfsRtTarget ∧
    (mkPositionsOptions f).GtfsRtTarget =
      (mkPositionsOptions { f with readable := true }).GtfsRtTarget := by
  rcases f with ⟨a, b, p, k, gf, bf, t, j, r, s, lp, dc⟩
  cases j <;>
    simp [mkAlertsOptionsMain, mkPositionsOptions, mkBrigadesOptions]

/-- Claim C4: whenever the fetch succeeds with archive `g`, `loadGtfs` in
alerts mode loads only `routes.txt` — and fails with the required-file
error exactly when `routes.txt` is absent from the archive — while in any
other mode it loads the complete dataset. -/
theorem loadGtfs_alerts_vs_full (env : Env) (f : Flags) (st : St) (g : Gtfs)
    (hfetch : env.fetchGtfs f.gtfsFile = Except.ok g) :
    (f.alerts = true → g.zipFiles.contains "routes.txt" = true →
      (loadGtfs env f st).1.events =
          st.events ++ [(fetchStep env f).1, Event.loadRoutes] ∧
        (loadGtfs env f st).2 = env.loadRoutesRes) ∧
    (f.alerts = true → g.zipFiles.contains "routes.txt" = false →
      (loadGtfs env f st).2 = some "no file routes.txt in the GTFS" ∧
        (loadGtfs env f st).1.events = st.events ++ [(fetchStep env f).1]) ∧
    (f.alerts = false →
      (loadGtfs env f st).1.events =
          st.events ++ [(fetchStep env f).1, Event.loadAll] ∧
        (loadGtfs env f st).2 = env.loadAllRes) := by
  have hmain : loadGtfs env f st =
      loadGtfsAfterFetch env f st (fetchStep env f).1 (Except.ok g) := by
    unfold loadGtfs
    rw [← hfetch, ← fetchStep_snd]
  rw [hmain]
  refine ⟨fun ha hc => ?_, fun ha hc => ?_, fun ha => ?_⟩
  · have hc2 : "routes.txt" ∈ g.zipFiles := by simpa using hc
    simp [loadGtfsAfterFetch, Gtfs.getZipFileByName, ha, hc2]
  · have hc2 : "routes.txt" ∉ g.zipFiles := by simpa using hc
    simp [loadGtfsAfterFetch, Gtfs.getZipFileByName, ha, hc2]
  · simp [loadGtfsAfterFetch, ha]

theorem loadGtfs_alerts_vs_full_witness :
    envW.fetchGtfs flagsA.gtfsFile =
      Except.ok { zipFiles := ["routes.txt", "trips.txt"] } ∧
    flagsA.alerts = true ∧
    (Gtfs.zipFiles { zipFiles := ["routes.txt", "trips.txt"] }).contains
      "routes.txt" = true ∧
    (loadGtfs envW flagsA St.init).2 = envW.loadRoutesRes :=
  ⟨rfl, rfl, by decide,
    ((loadGtfs_alerts_vs_full envW flagsA St.init
        { zipFiles := ["routes.txt", "trips.txt"] } rfl).1 rfl (by decide)).2⟩

/-- Claim C5: in positions mode the static dataset is never loaded — the
global handle remains nil and the trace is either empty (a rejected
configuration) or exactly one positions-generation call whose options are
built from the brigade-mapping file location, never a fetch or a dataset
load. -/
theorem positions_never_loads (env : Env) (f : Flags)
    (hp : f.positions = true) (ha : f.alerts = false)
    (hb : f.brigades = false) :
    (mainRun env f).1.gtfsFile = none ∧
    ((mainRun env f).1.events = [] ∨
      (mainRun env f).1.events =
        [Event.makePositions (mkPositionsOptions f)]) ∧
    (mkPositionsOptions f).Brigades = f.brigadesFile := by
  rcases f with ⟨a, b, p, k, gf, bf, t, j, r, s, lp, dc⟩
  simp only at hp ha hb
  subst hp; subst ha; subst hb
  refine ⟨?_, ?_, ?_⟩
  · rcases Nat.eq_zero_or_pos lp with h0 | h0
    · subst h0
      by_cases hk : k = "" <;>
        simp [mainRun, checkModes, mainPositions, St.init, hk]
    · have hl2 : decide (0 < lp) = true := by simpa using h0
      simp [mainRun, checkModes, St.init, hl2]
  · rcases Nat.eq_zero_or_pos lp with h0 | h0
    · subst h0
      by_cases hk : k = "" <;>
        simp [mainRun, checkModes, mainPositions, St.init, hk]
    · have hl2 : decide (0 < lp) = true := by simpa using h0
      simp [mainRun, checkModes, St.init, hl2]
  · cases j <;> simp [mkPositionsOptions]

theorem positions_never_loads_witness :
    flagsP.positions = true ∧ flagsP.alerts = false ∧
    flagsP.brigades = false ∧
    ((mainRun envW flagsP).1.gtfsFile = none ∧
      ((mainRun envW flagsP).1.events = [] ∨
        (mainRun envW flagsP).1.events =
          [Event.makePositions (mkPositionsOptions flagsP)]) ∧
      (mkPositionsOptions flagsP).Brigades = flagsP.brigadesFile) :=
  ⟨rfl, rfl, rfl, positions_never_loads envW flagsP rfl rfl rfl⟩

/-- Claim C6: with an empty credential, `mainBrigades` and `mainPositions`
return the missing-credential error with the state untouched (the
generation collaborator is never invoked), while `mainAlerts` behaves
identically whatever the credential is. -/
theorem missing_credential (env : Env) (f : Flags) (st : St)
    (hk : f.apikey = "") :
    mainBrigades env f st =
      (st, some "Key for api.um.warszawa.pl needs to be provided") ∧
    mainPositions env f st =
      (st, some "Key for api.um.warszawa.pl needs to be provided") ∧
    ∀ g : Flags, mainAlerts env g st = mainAlerts env { g with apikey := "" } st := by
  refine ⟨by simp [mainBrigades, hk], by simp [mainPositions, hk], ?_⟩
  intro g
  rcases g with ⟨a, b, p, k, gf, bf, t, j, r, s, lp, dc⟩
  rfl

theorem missing_credential_witness :
    ({ flagsW with apikey := "" } : Flags).apikey = "" ∧
    (mainBrigades envW { flagsW with apikey := "" } St.init =
      (St.init, some "Key for api.um.warszawa.pl needs to be provided") ∧
     mainPositions envW { flagsW with apikey := "" } St.init =
      (St.init, some "Key for api.um.warszawa.pl needs to be provided") ∧
     ∀ g : Flags, mainAlerts envW g St.init =
        mainAlerts envW { g with apikey := "" } St.init) :=
  ⟨rfl, missing_credential envW { flagsW with apikey := "" } St.init rfl⟩

/-- Claim C7: a location is network-addressed exactly when it starts with
the scheme prefix `http://` or `https://`, and this one test picks both
the dataset loader in `loadGtfs` (network fetch vs file read) and the
`Resource` variant constructed in `loopAlerts` (HTTP vs local), which is
fixed at construction. -/
theorem classification_consistent (env : Env) (f : Flags) (s : String) :
    (isNetworkAddressed s =
      (s.startsWith "http://" || s.startsWith "https://")) ∧
    ((fetchStep env f).1 =
      if isNetworkAddressed f.gtfsFile then Event.fetchURL f.gtfsFile
      else Event.fetchFile f.gtfsFile) ∧
    (gtfsResourceFor f =
      if isNetworkAddressed f.gtfsFile then
        Resource.http f.gtfsFile f.dataCheck
      else Resource.localFile f.gtfsFile f.dataCheck) := by
  refine ⟨rfl, ?_, ?_⟩ <;>
    cases h : isNetworkAddressed f.gtfsFile <;>
      simp [fetchStep, gtfsResourceFor, h]

/-- Claim C8: the options bundles are deterministic functions of the
process configuration — two identical configurations yield field-for-field
equal options for every mode, in both one-shot and loop paths. -/
theorem options_deterministic (f g : Flags) (h : f = g) :
    mkAlertsOptionsMain f = mkAlertsOptionsMain g ∧
    mkAlertsOptionsLoop f = mkAlertsOptionsLoop g ∧
    mkBrigadesOptions f = mkBrigadesOptions g ∧
    mkPositionsOptions f = mkPositionsOptions g := by
  subst h
  exact ⟨rfl, rfl, rfl, rfl⟩

theorem options_deterministic_witness :
    flagsW = flagsW ∧
    (mkAlertsOptionsMain flagsW = mkAlertsOptionsMain flagsW ∧
     mkAlertsOptionsLoop flagsW = mkAlertsOptionsLoop flagsW ∧
     mkBrigadesOptions flagsW = mkBrigadesOptions flagsW ∧
     mkPositionsOptions flagsW = mkPositionsOptions flagsW) :=
  ⟨rfl, options_deterministic flagsW flagsW rfl⟩

/-- Claim C10: the alerts options built by the one-shot path and by the
loop path agree on every field — `mainAlerts` and `loopAlerts` hand the
same options to the generation collaborator. -/
theorem alerts_options_paths_agree (f : Flags) :
    (mkAlertsOptionsMain f).GtfsRtTarget =
      (mkAlertsOptionsLoop f).GtfsRtTarget ∧
    (mkAlertsOptionsMain f).HumanReadable =
      (mkAlertsOptionsLoop f).HumanReadable ∧
    (mkAlertsOptionsMain f).ThrowLinkErrors =
      (mkAlertsOptionsLoop f).ThrowLinkErrors ∧
    (mkAlertsOptionsMain f).JSONTarget =
      (mkAlertsOptionsLoop f).JSONTarget ∧
    mkAlertsOptionsMain f = mkAlertsOptionsLoop f :=
  ⟨rfl, rfl, rfl, rfl, rfl⟩

/-- Claim C9: loop cycles are totally ordered — every boundary event of an
earlier cycle (its check and any triggered regeneration, including that
regeneration's end) occurs strictly before every boundary event of a later
cycle, so no two cycles and no two regenerations overlap. -/
theorem loop_cycles_totally_ordered (changed : Nat → Bool) (n : Nat)
    (p q : Fin (alertsLoopTrace changed n).length)
    (h : ((alertsLoopTrace changed n).get p).cycle <
      ((alertsLoopTrace changed n).get q).cycle) :
    (p : Nat) < (q : Nat) := by
  by_contra hpq
  push_neg at hpq
  rcases Nat.lt_or_ge (q : Nat) (p : Nat) with hlt | hge
  · have hqp : q < p := hlt
    have hle :=
      List.pairwise_iff_get.mp (alertsLoopTrace_pairwise changed n) q p hqp
    exact absurd h (Nat.not_lt.mpr hle)
  · have heq : q = p := Fin.ext (Nat.le_antisymm hpq hge)
    subst heq
    exact absurd h (lt_irrefl _)

theorem loop_cycles_totally_ordered_witness :
    0 < 4 ∧
    (((alertsLoopTrace (fun _ => true) 2).get
        ⟨0, by decide⟩).cycle <
      ((alertsLoopTrace (fun _ => true) 2).get
        ⟨4, by decide⟩).cycle) ∧
    (0 : Nat) < (4 : Nat) :=
  ⟨by decide, by decide,
    loop_cycles_totally_ordered (fun _ => true) 2
      ⟨0, by decide⟩ ⟨4, by decide⟩ (by decide)⟩
